import Mathlib

/-!
Verification of the `rust_iter_solver` crate: conjugate-gradient style
iterative solvers (`cg_solver`, `cgnr_solver`, `cgne_solver`) and the
preconditioned stub (`pcg_solver`) from `src/iter_solvers/mod.rs`,
`src/precond_iter_solvers/mod.rs` and `src/options/mod.rs`.

The Rust code is generic over a scalar `F: Float + Zero + One`.  We embed it
over an arbitrary `LinearOrderedField F` together with an explicit square-root
function `sq : F → F`, mirroring the abstract `Float::sqrt` the code calls.
`ndarray` vectors become `List F`, matrices become `List (List F)` (ndarray's
2-D arrays are rectangular by construction), the in-place mutation of `x_vec`
becomes explicit state passing, and the `assert!` dimension checks become an
`Option` result: `none` models the aborted call (no iteration performed, `x`
untouched), `some (x, err)` models a normal return with the mutated `x` and
the returned error value.
-/

namespace RustIterSolver

variable {F : Type} [LinearOrderedField F]

/-- Inner product of two vectors, `u.dot(&v)` in ndarray. -/
def dot (u v : List F) : F := (List.zipWith (fun a b => a * b) u v).sum

/-- Elementwise vector subtraction, `&u - &v` in ndarray. -/
def vecSub (u v : List F) : List F := List.zipWith (fun a b => a - b) u v

/-- `u.scaled_add(c, &v)`: elementwise `u + c * v`. -/
def scaledAdd (u : List F) (c : F) (v : List F) : List F :=
  List.zipWith (fun a b => a + c * b) u v

/-- Matrix–vector product `a_mat.dot(&x)`: one inner product per row. -/
def matVec (A : List (List F)) (x : List F) : List F :=
  A.map (fun row => dot row x)

/-- Elementwise vector addition. -/
def vecAdd (u v : List F) : List F := List.zipWith (fun a b => a + b) u v

/-- Column count of a 2-D array, `a_mat.len_of(Axis(1))`. -/
def ncols (A : List (List F)) : Nat := (A.headD []).length

/-- Row-vector–matrix product `r_t.dot(&a_mat)` (with `r_t` the 1×n row copy
of `r`), i.e. the vector `z` with `z j = Σ i, r i * A i j`, computed as the
sum of the rows of `A` scaled by the entries of `r`. -/
def rowVecMat (r : List F) (A : List (List F)) : List F :=
  (List.zipWith (fun c row => row.map (fun a => c * a)) r A).foldr vecAdd
    (List.replicate (ncols A) 0)

/-- Euclidean norm of a vector, given the scalar type's square root. -/
def euclNorm (sq : F → F) (v : List F) : F := sq (dot v v)

/-- The `IterOptions<F>` struct from `src/options/mod.rs`: solution
tolerance, iteration limit (`u32`, embedded as `Nat`) and the restart
interval (reserved for restart-based methods). -/
structure IterOptions (F : Type) where
  sol_tol : F
  iter_limit : Nat
  restart_iter : Nat

/-- The three `assert!` dimension checks shared by `cg_solver`,
`cgnr_solver` and `cgne_solver`: `len b = len x`, `A` square
(`nrows = ncols`), and `len b = nrows A`. -/
def validDims (A : List (List F)) (x b : List F) : Prop :=
  b.length = x.length ∧ A.length = ncols A ∧ b.length = A.length

instance validDims.dec (A : List (List F)) (x b : List F) :
    Decidable (validDims A x b) := by
  unfold validDims; exact inferInstance

/-- The five `assert!` dimension checks of `pcg_solver`: the three shared
ones plus `P` square and `P` of the same shape as `A`. -/
def pcgValidDims (A P : List (List F)) (x b : List F) : Prop :=
  b.length = x.length ∧ A.length = ncols A ∧ P.length = ncols P ∧
    (ncols P = ncols A ∧ P.length = A.length) ∧ b.length = A.length

instance pcgValidDims.dec (A P : List (List F)) (x b : List F) :
    Decidable (pcgValidDims A P x b) := by
  unfold pcgValidDims; exact inferInstance

/-- The `for _istep in 0..opt.iter_limit` loop of `cg_solver`
(src/iter_solvers/mod.rs lines 58–86), fuel = remaining iterations.
State: `x_vec`, `ri`, `pki`, `rtr`, `rt1r1`, `err` exactly as in the source;
when the fuel is exhausted the loop falls through and the function returns
the current `err` (we also return the final `x_vec`). -/
def cg_loop (sq : F → F) (a_mat : List (List F)) (tol : F) :
    Nat → List F → List F → List F → F → F → F → List F × F
  | 0, x_vec, _ri, _pki, _rtr, _rt1r1, err => (x_vec, err)
  | Nat.succ k, x_vec, ri, pki, rtr, rt1r1, _err =>
      let a_pk := matVec a_mat pki
      let pkt_a_pk := dot pki a_pk
      let mu := rtr / pkt_a_pk
      let x' := scaledAdd x_vec mu pki
      let ri' := scaledAdd ri (-mu) a_pk
      let rtr' := dot ri' ri'
      let err' := sq rtr'
      if |err'| < tol then (x', err')
      else
        let tau := rtr' / rt1r1
        let pki' := List.zipWith (fun pk r => r + tau * pk) pki ri'
        cg_loop sq a_mat tol k x' ri' pki' rtr' rtr' err'

/-- `cg_solver` from src/iter_solvers/mod.rs lines 14–89: dimension asserts,
then `ri = A·x − b`, `pki = ri`, `rtr = ri·ri`, `err = sqrt rtr`, then the
iteration loop.  `none` models the asserts aborting; `some (x, err)` models
the normal return (`x_vec` mutated in place, `err` returned). -/
def cg_solver (sq : F → F) (a_mat : List (List F)) (x_vec b_vec : List F)
    (opt : IterOptions F) : Option (List F × F) :=
  if validDims a_mat x_vec b_vec then
    let ri := vecSub (matVec a_mat x_vec) b_vec
    let pki := ri
    let rtr := dot ri ri
    let err := sq rtr
    some (cg_loop sq a_mat opt.sol_tol opt.iter_limit x_vec ri pki rtr rtr err)
  else none

/-- The iteration loop of `cgnr_solver` (src/iter_solvers/mod.rs lines
153–187).  State: `x_vec`, `ri`, `pki`, `ztz`, `zt1z1`, `err`; the step
length is `ztz / (a_pk·a_pk)`, the convergence test uses `sqrt (ri·ri)`, and
the direction update rebuilds `zi = riᵀ·A` from the updated residual. -/
def cgnr_loop (sq : F → F) (a_mat : List (List F)) (tol : F) :
    Nat → List F → List F → List F → F → F → F → List F × F
  | 0, x_vec, _ri, _pki, _ztz, _zt1z1, err => (x_vec, err)
  | Nat.succ k, x_vec, ri, pki, ztz, zt1z1, _err =>
      let a_pk := matVec a_mat pki
      let a_pk_t_a_pk := dot a_pk a_pk
      let mu := ztz / a_pk_t_a_pk
      let x' := scaledAdd x_vec mu pki
      let ri' := scaledAdd ri (-mu) a_pk
      let rtr' := dot ri' ri'
      let err' := sq rtr'
      if |err'| < tol then (x', err')
      else
        let zi' := rowVecMat ri' a_mat
        let ztz' := dot zi' zi'
        let tau := ztz' / zt1z1
        let pki' := List.zipWith (fun pk z => z + tau * pk) pki zi'
        cgnr_loop sq a_mat tol k x' ri' pki' ztz' ztz' err'

/-- `cgnr_solver` from src/iter_solvers/mod.rs lines 102–190: dimension
asserts, then `ri = A·x − b`, `zi = riᵀ·A`, `pki = zi`, `ztz = zi·zi`,
`rtr = ri·ri`, `err = sqrt rtr`, then the iteration loop. -/
def cgnr_solver (sq : F → F) (a_mat : List (List F)) (x_vec b_vec : List F)
    (opt : IterOptions F) : Option (List F × F) :=
  if validDims a_mat x_vec b_vec then
    let ri := vecSub (matVec a_mat x_vec) b_vec
    let zi := rowVecMat ri a_mat
    let pki := zi
    let ztz := dot zi zi
    let rtr := dot ri ri
    let err := sq rtr
    some (cgnr_loop sq a_mat opt.sol_tol opt.iter_limit x_vec ri pki ztz ztz err)
  else none

/-- The iteration loop of `cgne_solver` (src/iter_solvers/mod.rs lines
253–285).  State: `x_vec`, `ri`, `pki`, `rtr`, `rt1r1`, `err`; the step
length is `rtr / (pki·pki)` and the direction update rebuilds `zi = riᵀ·A`
from the updated residual. -/
def cgne_loop (sq : F → F) (a_mat : List (List F)) (tol : F) :
    Nat → List F → List F → List F → F → F → F → List F × F
  | 0, x_vec, _ri, _pki, _rtr, _rt1r1, err => (x_vec, err)
  | Nat.succ k, x_vec, ri, pki, rtr, rt1r1, _err =>
      let a_pk := matVec a_mat pki
      let pki_t_pki := dot pki pki
      let mu := rtr / pki_t_pki
      let x' := scaledAdd x_vec mu pki
      let ri' := scaledAdd ri (-mu) a_pk
      let rtr' := dot ri' ri'
      let err' := sq rtr'
      if |err'| < tol then (x', err')
      else
        let zi' := rowVecMat ri' a_mat
        let tau := rtr' / rt1r1
        let pki' := List.zipWith (fun pk z => z + tau * pk) pki zi'
        cgne_loop sq a_mat tol k x' ri' pki' rtr' rtr' err'

/-- `cgne_solver` from src/iter_solvers/mod.rs lines 203–288: dimension
asserts, then `ri = A·x − b`, `zi = riᵀ·A`, `pki = zi`, `rtr = ri·ri`,
`err = sqrt rtr`, then the iteration loop. -/
def cgne_solver (sq : F → F) (a_mat : List (List F)) (x_vec b_vec : List F)
    (opt : IterOptions F) : Option (List F × F) :=
  if validDims a_mat x_vec b_vec then
    let ri := vecSub (matVec a_mat x_vec) b_vec
    let zi := rowVecMat ri a_mat
    let pki := zi
    let rtr := dot ri ri
    let err := sq rtr
    some (cgne_loop sq a_mat opt.sol_tol opt.iter_limit x_vec ri pki rtr rtr err)
  else none

/-- `pcg_solver` from src/precond_iter_solvers/mod.rs lines 7–54: the five
dimension asserts, then `let err: F = F::one(); let _tol = opt.sol_tol; err`
— a validated stub that performs no iteration (its loop body is commented
out in the source) and returns the constant one.  `x_vec` is an immutable
view in this signature, so no solution vector is returned. -/
def pcg_solver (a_mat p_mat : List (List F)) (x_vec b_vec : List F)
    (_opt : IterOptions F) : Option F :=
  if pcgValidDims a_mat p_mat x_vec b_vec then some 1 else none

/-- Concrete stand-in over `ℚ` for the abstract `Float::sqrt` the Rust code
is generic over (the solvers are embedded generically in `sq : F → F`); it
is the exact square root on the scalars 0, 1, 100 and 400, the only values
the concrete demonstration runs below ever pass to it. -/
def ratSqrt (q : ℚ) : ℚ :=
  if q = 0 then 0 else if q = 1 then 1 else if q = 100 then 10 else
    if q = 400 then 20 else q

/-! ### Specification-side definitions

These follow the wording of the specification (and of the claims), to be
compared with the source-translated definitions above.  Spec §4.2 keeps a
single running `rtr` scalar (`τ = rtr_new / rtr; rtr ← rtr_new`) where the
source keeps the pair `rtr`, `rt1r1`; the equality lemmas below show the two
recurrences coincide. -/

/-- Spec §4.2 steps 3a–3i (claim C3): per step `w = A·p`, `denom = p·w`,
`μ = rtr/denom`, `x ← x+μp`, `r ← r−μw`, `rtr_new = r·r`,
`err = sqrt rtr_new`, stop if `|err| < tol`, else `τ = rtr_new/rtr`,
`rtr ← rtr_new`, `p ← r + τ·p`. -/
def cg_spec_loop (sq : F → F) (A : List (List F)) (tol : F) :
    Nat → List F → List F → List F → F → F → List F × F
  | 0, x, _r, _p, _rtr, err => (x, err)
  | Nat.succ k, x, r, p, rtr, _err =>
      let w := matVec A p
      let denom := dot p w
      let mu := rtr / denom
      let x' := scaledAdd x mu p
      let r' := scaledAdd r (-mu) w
      let rtrNew := dot r' r'
      let err' := sq rtrNew
      if |err'| < tol then (x', err')
      else
        let tau := rtrNew / rtr
        let p' := List.zipWith (fun pk rk => rk + tau * pk) p r'
        cg_spec_loop sq A tol k x' r' p' rtrNew err'

/-- Spec §4.2 steps 1–4 (claim C3): `r₀ = A·x₀ − b`, `p₀ = r₀`,
`rtr = r₀·r₀`, `err = sqrt rtr`, loop for `iteration_limit` steps,
return `err` (and the mutated `x`). -/
def cg_spec (sq : F → F) (A : List (List F)) (x b : List F)
    (opt : IterOptions F) : Option (List F × F) :=
  if validDims A x b then
    let r0 := vecSub (matVec A x) b
    let rtr := dot r0 r0
    some (cg_spec_loop sq A opt.sol_tol opt.iter_limit x r0 r0 rtr (sq rtr))
  else none

/-- Spec §4.4 step 2–3 (claim C6): per step `w = A·p`, `denom = p·p`,
`μ = (r·r)/denom`, `x ← x+μp`, `r ← r−μw`, `err = ‖r‖`, stop if below
tolerance, else `z = Aᵀ·r`, `τ = (r_new·r_new)/(r_old·r_old)`,
`p ← z + τ·p`. -/
def cgne_spec_loop (sq : F → F) (A : List (List F)) (tol : F) :
    Nat → List F → List F → List F → F → F → List F × F
  | 0, x, _r, _p, _rtr, err => (x, err)
  | Nat.succ k, x, r, p, rtr, _err =>
      let w := matVec A p
      let denom := dot p p
      let mu := rtr / denom
      let x' := scaledAdd x mu p
      let r' := scaledAdd r (-mu) w
      let rtrNew := dot r' r'
      let err' := sq rtrNew
      if |err'| < tol then (x', err')
      else
        let z' := rowVecMat r' A
        let tau := rtrNew / rtr
        let p' := List.zipWith (fun pk zk => zk + tau * pk) p z'
        cgne_spec_loop sq A tol k x' r' p' rtrNew err'

/-- Spec §4.4 step 1 (claim C6): `r₀ = A·x₀ − b`, `z₀ = Aᵀ·r₀`, `p₀ = z₀`,
then the CGNE loop. -/
def cgne_spec (sq : F → F) (A : List (List F)) (x b : List F)
    (opt : IterOptions F) : Option (List F × F) :=
  if validDims A x b then
    let r0 := vecSub (matVec A x) b
    let z0 := rowVecMat r0 A
    let rtr := dot r0 r0
    some (cgne_spec_loop sq A opt.sol_tol opt.iter_limit x r0 z0 rtr (sq rtr))
  else none

/-- In the source loops `rt1r1` always equals `rtr` at the loop head, so the
two-variable source recurrence coincides with the spec's single-variable
one.  Proved by induction on the remaining fuel. -/
theorem cg_loop_eq_spec (sq : F → F) (A : List (List F)) (tol : F) :
    ∀ (k : Nat) (x r p : List F) (c e : F),
      cg_loop sq A tol k x r p c c e = cg_spec_loop sq A tol k x r p c e := by
  intro k
  induction k with
  | zero => intro x r p c e; rfl
  | succ n ih =>
      intro x r p c e
      simp only [cg_loop, cg_spec_loop]
      split
      · rfl
      · exact ih _ _ _ _ _

/-- Same collapse of `rt1r1` for the CGNE loop. -/
theorem cgne_loop_eq_spec (sq : F → F) (A : List (List F)) (tol : F) :
    ∀ (k : Nat) (x r p : List F) (c e : F),
      cgne_loop sq A tol k x r p c c e = cgne_spec_loop sq A tol k x r p c e := by
  intro k
  induction k with
  | zero => intro x r p c e; rfl
  | succ n ih =>
      intro x r p c e
      simp only [cgne_loop, cgne_spec_loop]
      split
      · rfl
      · exact ih _ _ _ _ _

/-- The step-length denominator `pkt_a_pk = pki·(A·pki)` computed by the
first iteration of `cg_solver` (src lines 60–62), as a function of the
inputs: the initial direction is `p₀ = r₀ = A·x − b`. -/
def cg_first_denom (A : List (List F)) (x b : List F) : F :=
  let p0 := vecSub (matVec A x) b
  dot p0 (matVec A p0)

/-- The step-length denominator `a_pk_t_a_pk = (A·pki)·(A·pki)` computed by
the first iteration of `cgnr_solver` (src lines 155–157): the initial
direction is `p₀ = z₀ = r₀ᵀ·A`. -/
def cgnr_first_denom (A : List (List F)) (x b : List F) : F :=
  let w := matVec A (rowVecMat (vecSub (matVec A x) b) A)
  dot w w

/-- The step-length denominator `pki_t_pki = pki·pki` computed by the first
iteration of `cgne_solver` (src lines 255–257): the initial direction is
`p₀ = z₀ = r₀ᵀ·A`. -/
def cgne_first_denom (A : List (List F)) (x b : List F) : F :=
  let p0 := rowVecMat (vecSub (matVec A x) b) A
  dot p0 p0

/-- The first iteration of the `cg_solver` loop written out unconditionally
(claim C10): the update `x ← x + μ·p` is performed before any convergence
test, after which the loop either stops or continues with the remaining
fuel `k`. -/
def cg_first_update (sq : F → F) (A : List (List F)) (x b : List F)
    (tol : F) (k : Nat) : List F × F :=
  let r0 := vecSub (matVec A x) b
  let w := matVec A r0
  let mu := dot r0 r0 / dot r0 w
  let x1 := scaledAdd x mu r0
  let r1 := scaledAdd r0 (-mu) w
  let rtr1 := dot r1 r1
  let err1 := sq rtr1
  if |err1| < tol then (x1, err1)
  else
    let tau := rtr1 / dot r0 r0
    cg_loop sq A tol k x1 r1 (List.zipWith (fun pk r => r + tau * pk) r0 r1)
      rtr1 rtr1 err1

/-- The first iteration of the `cgnr_solver` loop written out
unconditionally (claim C10). -/
def cgnr_first_update (sq : F → F) (A : List (List F)) (x b : List F)
    (tol : F) (k : Nat) : List F × F :=
  let r0 := vecSub (matVec A x) b
  let z0 := rowVecMat r0 A
  let w := matVec A z0
  let mu := dot z0 z0 / dot w w
  let x1 := scaledAdd x mu z0
  let r1 := scaledAdd r0 (-mu) w
  let rtr1 := dot r1 r1
  let err1 := sq rtr1
  if |err1| < tol then (x1, err1)
  else
    let z1 := rowVecMat r1 A
    let ztz1 := dot z1 z1
    let tau := ztz1 / dot z0 z0
    cgnr_loop sq A tol k x1 r1 (List.zipWith (fun pk z => z + tau * pk) z0 z1)
      ztz1 ztz1 err1

/-- The first iteration of the `cgne_solver` loop written out
unconditionally (claim C10). -/
def cgne_first_update (sq : F → F) (A : List (List F)) (x b : List F)
    (tol : F) (k : Nat) : List F × F :=
  let r0 := vecSub (matVec A x) b
  let z0 := rowVecMat r0 A
  let w := matVec A z0
  let mu := dot r0 r0 / dot z0 z0
  let x1 := scaledAdd x mu z0
  let r1 := scaledAdd r0 (-mu) w
  let rtr1 := dot r1 r1
  let err1 := sq rtr1
  if |err1| < tol then (x1, err1)
  else
    let z1 := rowVecMat r1 A
    let tau := rtr1 / dot r0 r0
    cgne_loop sq A tol k x1 r1 (List.zipWith (fun pk z => z + tau * pk) z0 z1)
      rtr1 rtr1 err1

/-! ### Claim theorems -/

/-- C1: on the 1×1 system `A = [[5]]`, `b = [10]`, `x0 = [0]` with positive
tolerance `1e-10`, `cg_solver` does terminate with returned error 0 after
the first loop iteration (the run with iteration limit 5 returns the same
result as with limit 1, so the loop broke at iteration one), but it leaves
`x = [-2]`, not `[2]`: the exact solution of `A·x = b` is `[2]`
(`matVec [[5]] [2] = [10]`), and `x = [-2]` does not satisfy it.  The code
initialises `r = A·x − b` yet updates `x ← x + μ·p`, `r ← r − μ·w`, the
directions of the `r = b − A·x` convention, so its internal residual is
driven to zero while the true solution is approached by `2·x0 − x`; the
claim (and the solver's own documentation, which says it solves `A x = b`)
is what the code was meant to do. -/
theorem C1_cg_unit_system_run :
    cg_solver ratSqrt [[(5 : ℚ)]] [0] [10] ⟨1 / 10 ^ 10, 1, 25⟩ =
        some ([-2], 0) ∧
      cg_solver ratSqrt [[(5 : ℚ)]] [0] [10] ⟨1 / 10 ^ 10, 5, 25⟩ =
        some ([-2], 0) ∧
      matVec [[(5 : ℚ)]] [2] = [10] ∧ ([-2] : List ℚ) ≠ [2] := by
  refine ⟨?_, ?_, ?_, ?_⟩ <;>
    norm_num [cg_solver, cg_loop, validDims, ncols, dot, vecSub, scaledAdd,
      matVec, ratSqrt]

/-- C2 counterexample: the claim that `pcg_solver` returns the Euclidean
norm of the residual `A·x − b` fails on the dimensionally valid input
`A = [[1]]`, `P = [[1]]`, `x = [0]`, `b = [0]`: the residual is `[0]` with
norm 0, but the function returns 1 (the source is a validated stub that
returns `F::one()` without iterating). -/
theorem C2_pcg_stub_counterexample :
    pcg_solver [[(1 : ℚ)]] [[1]] [0] [0] ⟨1 / 10, 5, 25⟩ = some 1 ∧
      vecSub (matVec [[(1 : ℚ)]] [0]) [0] = [0] ∧
      euclNorm ratSqrt (vecSub (matVec [[(1 : ℚ)]] [0]) [0]) = 0 ∧
      (1 : ℚ) ≠ 0 := by
  refine ⟨?_, ?_, ?_, ?_⟩ <;>
    norm_num [pcg_solver, pcgValidDims, ncols, euclNorm, dot, vecSub, matVec,
      ratSqrt]

/-- C2 amended: `pcg_solver` validates the dimensions (including the
preconditioner's) and then, for every dimensionally valid input, returns
the constant one without performing any iteration — not the residual norm
of the system it was given. -/
theorem C2_pcg_returns_one (A P : List (List F)) (x b : List F)
    (opt : IterOptions F) (h : pcgValidDims A P x b) :
    pcg_solver A P x b opt = some 1 := by
  unfold pcg_solver
  rw [if_pos h]

/-- C2 witness: the amended statement applied to a concrete dimensionally
valid input. -/
theorem C2_pcg_returns_one_witness :
    pcg_solver [[(2 : ℚ)]] [[3]] [4] [5] ⟨1 / 10, 7, 25⟩ = some 1 :=
  C2_pcg_returns_one [[(2 : ℚ)]] [[3]] [4] [5] ⟨1 / 10, 7, 25⟩
    (by norm_num [pcgValidDims, ncols])

/-- C3: `cg_solver` coincides, on every input, with the Fletcher–Reeves
recurrence exactly as §4.2 of the specification states it: `r₀ = A·x₀ − b`,
`p₀ = r₀`, per step `w = A·p`, `μ = rtr/(p·w)`, `x ← x + μ·p`,
`r ← r − μ·w`, `err = sqrt (r·r)`, the test `|err| < tol` placed after the
residual update and before the direction update `p ← r + τ·p` with
`τ = rtr_new / rtr_old`, and the last `err` returned (`cg_spec` is the
verbatim transcription of the §4.2 steps). -/
theorem C3_cg_follows_spec_recurrence (sq : F → F) (A : List (List F))
    (x b : List F) (opt : IterOptions F) :
    cg_solver sq A x b opt = cg_spec sq A x b opt := by
  unfold cg_solver cg_spec
  split
  · exact congrArg some
      (cg_loop_eq_spec sq A opt.sol_tol opt.iter_limit x _ _ _ _)
  · rfl

/-- C4: on any input whose shapes are inconsistent in the sense of the
shared asserts (`len x ≠ len b`, or `A` not square, or `len b ≠ rows A` —
and for `pcg_solver` additionally a preconditioner that is not square or
not of `A`'s shape), each of the four solvers aborts in validation: the
embedded result is `none`, produced before any iteration, so `x` is never
touched. -/
theorem C4_dimension_validation (sq : F → F) (A P : List (List F))
    (x b : List F) (opt : IterOptions F) :
    (¬ validDims A x b →
      cg_solver sq A x b opt = none ∧ cgnr_solver sq A x b opt = none ∧
        cgne_solver sq A x b opt = none) ∧
    (¬ pcgValidDims A P x b → pcg_solver A P x b opt = none) := by
  constructor
  · intro h
    refine ⟨?_, ?_, ?_⟩
    · unfold cg_solver; rw [if_neg h]
    · unfold cgnr_solver; rw [if_neg h]
    · unfold cgne_solver; rw [if_neg h]
  · intro h
    unfold pcg_solver
    rw [if_neg h]

/-- C4 witness: with `x = [0]` of length 1 and `b = [1, 2]` of length 2 the
shapes are inconsistent and all four solvers return `none`. -/
theorem C4_dimension_validation_witness :
    cg_solver ratSqrt [[(1 : ℚ)]] [0] [1, 2] ⟨1, 1, 1⟩ = none ∧
      cgnr_solver ratSqrt [[(1 : ℚ)]] [0] [1, 2] ⟨1, 1, 1⟩ = none ∧
      cgne_solver ratSqrt [[(1 : ℚ)]] [0] [1, 2] ⟨1, 1, 1⟩ = none ∧
      pcg_solver [[(1 : ℚ)]] [[1]] [0] [1, 2] ⟨1, 1, 1⟩ = none := by
  have h := C4_dimension_validation ratSqrt [[(1 : ℚ)]] [[1]] [0] [1, 2]
    ⟨1, 1, 1⟩
  have h1 := h.1 (by norm_num [validDims, ncols])
  exact ⟨h1.1, h1.2.1, h1.2.2, h.2 (by norm_num [pcgValidDims, ncols])⟩

/-- C5: the step length of `cgnr_solver` is indeed `μ = (z·z)/(w·w)` and
its termination test uses the tracked residual vector rather than `z`, but
that tracked vector is not the original-space residual `A·x − b` the claim
names: on `A = [[5]]`, `b = [10]`, `x0 = [0]` the solver stops with tracked
residual norm 0 and returns `x = [-2]`, where the original-space residual
`A·x − b` is `[-20]` with Euclidean norm 20.  The code initialises
`r = A·x − b` but then updates `x ← x + μ·p`, `r ← r − μ·w`, under which
the true residual evolves as `r + μ·w`, so after the first step the tested
vector and `A·x − b` part ways — the specification's stated intent (test
the true original-space residual) is violated by this sign slip. -/
theorem C5_cgnr_termination_residual_divergence :
    cgnr_solver ratSqrt [[(5 : ℚ)]] [0] [10] ⟨1 / 10 ^ 10, 1, 25⟩ =
        some ([-2], 0) ∧
      vecSub (matVec [[(5 : ℚ)]] [-2]) [10] = [-20] ∧
      euclNorm ratSqrt [(-20 : ℚ)] = 20 ∧ (20 : ℚ) ≠ 0 := by
  refine ⟨?_, ?_, ?_, ?_⟩ <;>
    norm_num [cgnr_solver, cgnr_loop, validDims, ncols, dot, vecSub,
      scaledAdd, matVec, rowVecMat, vecAdd, euclNorm, ratSqrt]

/-- C6: `cgne_solver` coincides, on every input, with the recurrence the
claim states: per step `w = A·p`, `μ = (r·r)/(p·p)` — the denominator the
search direction's self inner product, not `w·w` as in CGNR — then
`x ← x + μ·p`, `r ← r − μ·w`, the convergence test on `‖r‖`, and, when not
converged, `p ← z + τ·p` with `z = Aᵀ·r` (the row product `rᵀ·A`) and
`τ = (r_new·r_new)/(r_old·r_old)` (`cgne_spec` is the verbatim
transcription of §4.4). -/
theorem C6_cgne_follows_spec_recurrence (sq : F → F) (A : List (List F))
    (x b : List F) (opt : IterOptions F) :
    cgne_solver sq A x b opt = cgne_spec sq A x b opt := by
  unfold cgne_solver cgne_spec
  split
  · exact congrArg some
      (cgne_loop_eq_spec sq A opt.sol_tol opt.iter_limit x _ _ _ _)
  · rfl

/-- C7: with iteration limit 0 and dimensionally valid input, each of
`cg_solver`, `cgnr_solver` and `cgne_solver` performs no loop iteration and
returns the initial residual norm `sqrt ((A·x₀ − b)·(A·x₀ − b))` computed
from the unmodified inputs, with `x` returned exactly as it was passed
in. -/
theorem C7_zero_iteration_limit (sq : F → F) (A : List (List F))
    (x b : List F) (tol : F) (ri : Nat) (h : validDims A x b) :
    cg_solver sq A x b ⟨tol, 0, ri⟩ =
        some (x, sq (dot (vecSub (matVec A x) b) (vecSub (matVec A x) b))) ∧
      cgnr_solver sq A x b ⟨tol, 0, ri⟩ =
        some (x, sq (dot (vecSub (matVec A x) b) (vecSub (matVec A x) b))) ∧
      cgne_solver sq A x b ⟨tol, 0, ri⟩ =
        some (x, sq (dot (vecSub (matVec A x) b) (vecSub (matVec A x) b))) := by
  refine ⟨?_, ?_, ?_⟩
  · unfold cg_solver; rw [if_pos h]; rfl
  · unfold cgnr_solver; rw [if_pos h]; rfl
  · unfold cgne_solver; rw [if_pos h]; rfl

/-- C7 witness: the zero-limit statement applied to `A = [[2]]`, `x = [1]`,
`b = [1]`, where the initial residual is `[1]` and the returned pair is
`([1], 1)` for every solver, `x` unchanged. -/
theorem C7_zero_iteration_limit_witness :
    cg_solver ratSqrt [[(2 : ℚ)]] [1] [1] ⟨1 / 2, 0, 25⟩ = some ([1], 1) ∧
      cgnr_solver ratSqrt [[(2 : ℚ)]] [1] [1] ⟨1 / 2, 0, 25⟩ = some ([1], 1) ∧
      cgne_solver ratSqrt [[(2 : ℚ)]] [1] [1] ⟨1 / 2, 0, 25⟩ = some ([1], 1) := by
  have h := C7_zero_iteration_limit ratSqrt [[(2 : ℚ)]] [1] [1] (1 / 2) 25
    (by norm_num [validDims, ncols])
  refine ⟨h.1.trans ?_, h.2.1.trans ?_, h.2.2.trans ?_⟩ <;>
    norm_num [dot, vecSub, matVec, ratSqrt]

/-- C8: none of the solvers guards the step-length division.  On the
dimensionally valid input `A = [[1]]`, `x = [0]`, `b = [0]` the initial
residual, hence the initial search direction, is the zero vector, so the
denominator computed by the first iteration — `p·w` for CG, `w·w` for CGNR,
`p·p` for CGNE — is 0; the division `μ = numerator/denominator` is
performed regardless (the embedding's field division is total; Rust's
`Float` division likewise returns a value, a NaN, rather than aborting) and
every solver returns normally: no `none`, and the result type has no
distinct breakdown constructor — `pcg_solver`, which performs no division
at all, equally returns normally. -/
theorem C8_no_breakdown_guard :
    validDims [[(1 : ℚ)]] [0] [0] ∧
      cg_first_denom [[(1 : ℚ)]] [0] [0] = 0 ∧
      cgnr_first_denom [[(1 : ℚ)]] [0] [0] = 0 ∧
      cgne_first_denom [[(1 : ℚ)]] [0] [0] = 0 ∧
      (cg_solver ratSqrt [[(1 : ℚ)]] [0] [0] ⟨1 / 10, 3, 25⟩).isSome = true ∧
      (cgnr_solver ratSqrt [[(1 : ℚ)]] [0] [0] ⟨1 / 10, 3, 25⟩).isSome = true ∧
      (cgne_solver ratSqrt [[(1 : ℚ)]] [0] [0] ⟨1 / 10, 3, 25⟩).isSome = true ∧
      (pcg_solver [[(1 : ℚ)]] [[1]] [0] [0] ⟨1 / 10, 3, 25⟩).isSome = true := by
  refine ⟨?_, ?_, ?_, ?_, ?_, ?_, ?_, ?_⟩ <;>
    norm_num [cg_first_denom, cgnr_first_denom, cgne_first_denom, cg_solver,
      cgnr_solver, cgne_solver, pcg_solver, validDims, pcgValidDims, ncols,
      dot, vecSub, matVec, rowVecMat, vecAdd]

/-- C9: the restart interval is dead for all four solvers: two options
values agreeing on tolerance and iteration limit but with arbitrary
`restart_iter` values produce identical results (return value and final
`x`) on every input — none of the solver bodies ever reads
`restart_iter`. -/
theorem C9_restart_iter_noninterference (sq : F → F) (A P : List (List F))
    (x b : List F) (tol : F) (lim r1 r2 : Nat) :
    cg_solver sq A x b ⟨tol, lim, r1⟩ = cg_solver sq A x b ⟨tol, lim, r2⟩ ∧
      cgnr_solver sq A x b ⟨tol, lim, r1⟩ =
        cgnr_solver sq A x b ⟨tol, lim, r2⟩ ∧
      cgne_solver sq A x b ⟨tol, lim, r1⟩ =
        cgne_solver sq A x b ⟨tol, lim, r2⟩ ∧
      pcg_solver A P x b ⟨tol, lim, r1⟩ = pcg_solver A P x b ⟨tol, lim, r2⟩ :=
  ⟨rfl, rfl, rfl, rfl⟩

/-- C10: none of `cg_solver`, `cgnr_solver`, `cgne_solver` tests
convergence before entering the loop: whenever the iteration limit is
`k + 1 ≥ 1` (and the dimensions are valid), the result is exactly the
corresponding `*_first_update` value, which applies the full update
`x ← x + μ·p` unconditionally before the first convergence test — in
particular this holds even when `‖A·x₀ − b‖` is already below the
tolerance on entry. -/
theorem C10_no_initial_convergence_test (sq : F → F) (A : List (List F))
    (x b : List F) (tol : F) (ri k : Nat) (h : validDims A x b) :
    cg_solver sq A x b ⟨tol, k + 1, ri⟩ =
        some (cg_first_update sq A x b tol k) ∧
      cgnr_solver sq A x b ⟨tol, k + 1, ri⟩ =
        some (cgnr_first_update sq A x b tol k) ∧
      cgne_solver sq A x b ⟨tol, k + 1, ri⟩ =
        some (cgne_first_update sq A x b tol k) := by
  refine ⟨?_, ?_, ?_⟩
  · unfold cg_solver cg_first_update; rw [if_pos h]; rfl
  · unfold cgnr_solver cgnr_first_update; rw [if_pos h]; rfl
  · unfold cgne_solver cgne_first_update; rw [if_pos h]; rfl

/-- C10 witness: on `A = [[1]]`, `x0 = [1]`, `b = [0]` with tolerance 10
the initial residual norm is `1 < 10` — the initial guess already satisfies
the tolerance — yet with iteration limit 1 all three solvers still perform
the update and return `x = [2] ≠ [1]`. -/
theorem C10_no_initial_convergence_test_witness :
    |ratSqrt (dot (vecSub (matVec [[(1 : ℚ)]] [1]) [0])
        (vecSub (matVec [[(1 : ℚ)]] [1]) [0]))| < 10 ∧
      cg_solver ratSqrt [[(1 : ℚ)]] [1] [0] ⟨10, 1, 25⟩ = some ([2], 0) ∧
      cgnr_solver ratSqrt [[(1 : ℚ)]] [1] [0] ⟨10, 1, 25⟩ = some ([2], 0) ∧
      cgne_solver ratSqrt [[(1 : ℚ)]] [1] [0] ⟨10, 1, 25⟩ = some ([2], 0) ∧
      ([2] : List ℚ) ≠ [1] := by
  have h := C10_no_initial_convergence_test ratSqrt [[(1 : ℚ)]] [1] [0] 10 25
    0 (by norm_num [validDims, ncols])
  refine ⟨?_, h.1.trans ?_, h.2.1.trans ?_, h.2.2.trans ?_, ?_⟩ <;>
    norm_num [cg_first_update, cgnr_first_update, cgne_first_update, cg_loop,
      cgnr_loop, cgne_loop, ncols, dot, vecSub, scaledAdd, matVec, rowVecMat,
      vecAdd, ratSqrt]

end RustIterSolver
